import Mathlib

/-!
Shallow embedding of the radiosonde auto-rx acquisition pipeline
(source: auto_rx/auto_rx.py) and verification of its specification.

Conventions of the embedding:
* Python floats are modelled as exact rationals (plus distinguished
  infinity/NaN markers where the float() coercion can produce them).
* Fallible coercions return Option; functions that raise to their caller
  return Except.
* External effects (the rtl_power scan tool, the rs_detect classifier,
  the peak detector from the findpeaks module, sleeps, decoder launch)
  are represented by a scripted environment plus an event trace.
* All definitions are structurally recursive and kernel-computable, so
  every concrete scenario can be settled by decide or rfl.  Mathlib's
  rational arithmetic operations are irreducible, so the embedding uses
  mkRat-based equivalents (qadd, qsub, qmul, qdiv below) which are
  proved equal to the Mathlib operations.
-/

/-- Kernel-computable addition on rationals, used by the embedding so that
concrete runs evaluate inside decide. Proved equal to Mathlib addition in
qadd_eq. -/
def qadd (a b : ℚ) : ℚ := mkRat (a.num * b.den + b.num * a.den) (a.den * b.den)

/-- Kernel-computable subtraction on rationals. -/
def qsub (a b : ℚ) : ℚ := mkRat (a.num * b.den - b.num * a.den) (a.den * b.den)

/-- Kernel-computable multiplication on rationals. -/
def qmul (a b : ℚ) : ℚ := mkRat (a.num * b.num) (a.den * b.den)

/-- Kernel-computable inverse on rationals (0 maps to 0, as in Mathlib). -/
def qinv (a : ℚ) : ℚ := mkRat (Int.sign a.num * a.den) a.num.natAbs

/-- Kernel-computable division on rationals (division by 0 gives 0; the
places where Python would raise ZeroDivisionError instead are modelled
separately by pyDiv). -/
def qdiv (a b : ℚ) : ℚ := qmul a (qinv b)

theorem qadd_eq (a b : ℚ) : qadd a b = a + b := by
  have ha : (a.den : ℚ) ≠ 0 := by positivity
  have hb : (b.den : ℚ) ≠ 0 := by positivity
  rw [qadd, Rat.mkRat_eq_div]
  push_cast
  conv_rhs => rw [← Rat.num_div_den a, ← Rat.num_div_den b]
  rw [div_add_div _ _ ha hb]
  ring_nf

theorem qsub_eq (a b : ℚ) : qsub a b = a - b := by
  have ha : (a.den : ℚ) ≠ 0 := by positivity
  have hb : (b.den : ℚ) ≠ 0 := by positivity
  rw [qsub, Rat.mkRat_eq_div]
  push_cast
  conv_rhs => rw [← Rat.num_div_den a, ← Rat.num_div_den b]
  rw [div_sub_div _ _ ha hb]
  ring_nf

theorem qmul_eq (a b : ℚ) : qmul a b = a * b := by
  have ha : (a.den : ℚ) ≠ 0 := by positivity
  have hb : (b.den : ℚ) ≠ 0 := by positivity
  rw [qmul, Rat.mkRat_eq_div]
  push_cast
  conv_rhs => rw [← Rat.num_div_den a, ← Rat.num_div_den b]
  rw [div_mul_div_comm]

theorem qinv_eq (a : ℚ) : qinv a = a⁻¹ := by
  rw [qinv, Rat.mkRat_eq_divInt, Rat.inv_def']
  rcases lt_trichotomy a.num 0 with h | h | h
  · have h1 : Int.sign a.num = -1 := Int.sign_eq_neg_one_of_neg h
    have h2 : (a.num.natAbs : ℤ) = -a.num := by omega
    rw [h1, h2, show (-1 : ℤ) * (a.den : ℤ) = -(a.den : ℤ) from by ring,
      Rat.divInt_neg, neg_neg]
  · rw [h, Int.sign_zero, Int.zero_mul, Rat.zero_divInt, Rat.divInt_zero]
  · have h1 : Int.sign a.num = 1 := Int.sign_eq_one_of_pos h
    have h2 : (a.num.natAbs : ℤ) = a.num := by omega
    rw [h1, h2, Int.one_mul]

theorem qdiv_eq (a b : ℚ) : qdiv a b = a / b := by
  rw [qdiv, qmul_eq, qinv_eq, div_eq_mul_inv]

/-- Kernel-computable floor of a rational (Euclidean division of numerator
by denominator). -/
def ratFloor (x : ℚ) : ℤ := x.num.fdiv x.den

theorem ratFloor_intCast (n : ℤ) : ratFloor (n : ℚ) = n := by
  simp [ratFloor, Rat.num_intCast, Rat.den_intCast, Int.fdiv_one]

/-- Kernel-computable ceiling of a rational. -/
def ratCeil (x : ℚ) : ℤ := -(ratFloor (Rat.neg x))

/-- Round to the nearest integer, ties to even: the semantics of
numpy.round, used by quantize_freq (auto_rx.py line 120). -/
def roundHalfEven (x : ℚ) : ℤ :=
  if qsub x (mkRat (ratFloor x) 1) < mkRat 1 2 then ratFloor x
  else if mkRat 1 2 < qsub x (mkRat (ratFloor x) 1) then ratFloor x + 1
  else if ratFloor x % 2 = 0 then ratFloor x else ratFloor x + 1

theorem roundHalfEven_intCast (n : ℤ) : roundHalfEven (n : ℚ) = n := by
  have h2 : qsub ((n : ℚ)) (mkRat (ratFloor (n : ℚ)) 1) = 0 := by
    rw [ratFloor_intCast, qsub_eq, Rat.mkRat_one, sub_self]
  rw [roundHalfEven, h2, if_pos, ratFloor_intCast]
  rw [show (mkRat 1 2 : ℚ) = 1 / 2 from by rw [Rat.mkRat_eq_div]; norm_num]
  norm_num

/-- Characters Python strips as whitespace around numeric literals. -/
def isPyWhitespace (c : Char) : Bool :=
  c = ' ' || c = '\t' || c = '\n' || c = '\r' || c = '\x0b' || c = '\x0c'

/-- Strip leading and trailing Python whitespace. -/
def trimWS (cs : List Char) : List Char :=
  ((cs.dropWhile isPyWhitespace).reverse.dropWhile isPyWhitespace).reverse

/-- Numeric value of one decimal digit character. -/
def digitVal (c : Char) : ℕ := c.toNat - '0'.toNat

/-- Numeric value of a string of decimal digits. -/
def digitsVal (ds : List Char) : ℕ := ds.foldl (fun a c => 10 * a + digitVal c) 0

/-- Ten to an integer power, as a rational. -/
def pow10 (e : ℤ) : ℚ :=
  if 0 ≤ e then mkRat ((10 : ℤ) ^ e.toNat) 1 else mkRat 1 ((10 : ℕ) ^ (-e).toNat)

/-- Splitting a sign character off a numeric literal: returns
(negative?, remaining characters). -/
def splitSign : List Char → Bool × List Char
  | '+' :: r => (false, r)
  | '-' :: r => (true, r)
  | cs => (false, cs)

/-- Parse an unsigned decimal literal (digits, optional fractional part,
optional exponent), the numeric-literal grammar accepted by CPython's
float() after sign and whitespace handling.  Returns the exact rational
value. -/
def parseDecimal (cs : List Char) : Option ℚ :=
  let intPart := cs.takeWhile Char.isDigit
  let rest1 := cs.dropWhile Char.isDigit
  let fracPart := match rest1 with
    | '.' :: r => r.takeWhile Char.isDigit
    | _ => []
  let rest2 := match rest1 with
    | '.' :: r => r.dropWhile Char.isDigit
    | _ => rest1
  if intPart.isEmpty && fracPart.isEmpty then none
  else
    let mant : ℚ :=
      mkRat (digitsVal intPart * 10 ^ fracPart.length + digitsVal fracPart)
        ((10 : ℕ) ^ fracPart.length)
    match rest2 with
    | [] => some mant
    | e :: r =>
      if e = 'e' || e = 'E' then
        let sd := splitSign r
        let eds := sd.2.takeWhile Char.isDigit
        if eds.isEmpty || !(sd.2.dropWhile Char.isDigit).isEmpty then none
        else some (qmul mant (pow10 ((if sd.1 then -1 else 1) * (digitsVal eds : ℤ))))
      else none

/-- Result of a successful Python float() coercion: a finite exact value,
an infinity, or NaN. -/
inductive PyFloat where
  | finite (q : ℚ)
  | inf
  | neginf
  | nan
deriving DecidableEq, Repr

/-- The float() coercion of CPython 2 on a character list: strip
whitespace, take an optional sign, then either a case-insensitive
inf/infinity/nan keyword or a decimal literal.  Returns none where
float() raises ValueError. -/
def pythonFloat (cs : List Char) : Option PyFloat :=
  let t := trimWS cs
  let sd := splitSign t
  let low := sd.2.map Char.toLower
  if low = "inf".data || low = "infinity".data then
    some (if sd.1 then PyFloat.neginf else PyFloat.inf)
  else if low = "nan".data then some PyFloat.nan
  else match parseDecimal sd.2 with
    | some q => some (PyFloat.finite (if sd.1 then Rat.neg q else q))
    | none => none

/-- The float() coercion restricted to finite results, used where the
surrounding code does arithmetic on the value: read_rtl_power's scan
parameters.  Infinite/NaN artifacts are outside the model. -/
def pythonFloatQ (cs : List Char) : Option ℚ :=
  match pythonFloat cs with
  | some (PyFloat.finite q) => some q
  | _ => none

/-- The int() coercion of CPython 2 on a character list: strip
whitespace, optional sign, at least one decimal digit and nothing else.
Returns none where int() raises ValueError. -/
def pythonInt (cs : List Char) : Option ℤ :=
  let t := trimWS cs
  let sd := splitSign t
  if sd.2.isEmpty || !sd.2.all Char.isDigit then none
  else some ((if sd.1 then -1 else 1) * (digitsVal sd.2 : ℤ))

/-- Split a character list on commas, the semantics of Python's
str.split(",") (auto_rx.py lines 94 and 150). -/
def splitOnComma : List Char → List (List Char)
  | [] => [[]]
  | c :: cs =>
    if c = ',' then [] :: splitOnComma cs
    else match splitOnComma cs with
      | [] => [[c]]
      | f :: rest => (c :: f) :: rest

/-- Transmitter type classification outcomes (auto_rx.py lines 133-140). -/
inductive SondeType where
  | RS41
  | RS92
deriving DecidableEq, Repr

/-- quantize_freq (auto_rx.py lines 118-120): round a frequency to steps
of the quantization grid, numpy semantics (round half to even).  The
source maps this over an array; the embedding gives the scalar map.
numpy division by a zero grid yields inf/nan without raising; that case
is outside the model (the claims assume a nonzero grid). -/
def quantize_freq (freq quantize : ℚ) : ℚ :=
  qmul (mkRat (roundHalfEven (qdiv freq quantize)) 1) quantize

/-- detect_sonde (auto_rx.py lines 122-140), reduced to its decision
logic: the high byte of the nonnegative wait status returned by
os.system selects the classification; 3 gives RS41, 4 gives RS92,
anything else None (no classification, not an error). -/
def detect_sonde (status : ℕ) : Option SondeType :=
  if status >>> 8 = 3 then some SondeType.RS41
  else if status >>> 8 = 4 then some SondeType.RS92
  else none

/-- Telemetry record built by process_rs_line (auto_rx.py lines 156-169).
The freq and type tags attached later by the decoder loop (lines 223-224)
are not part of the parsed record. -/
structure RsFrame where
  frame : ℤ
  id : String
  date : String
  time : String
  lat : PyFloat
  lon : PyFloat
  alt : PyFloat
  vel_h : PyFloat
  heading : PyFloat
  vel_v : PyFloat
  crc : String
  temp : PyFloat
  humidity : PyFloat
deriving DecidableEq, Repr

/-- process_rs_line (auto_rx.py lines 143-178): split one decoder line on
commas, require at least eleven fields, coerce field 0 with int(),
fields 4-9 with float(), keep fields 1-3 and 10 as strings; any coercion
failure or field shortfall yields None (the source catches every
exception inside the function, so nothing propagates to the caller). -/
def process_rs_line (line : String) : Option RsFrame :=
  if (splitOnComma line.data).length < 11 then none
  else
    match pythonInt ((splitOnComma line.data).getD 0 []),
      pythonFloat ((splitOnComma line.data).getD 4 []),
      pythonFloat ((splitOnComma line.data).getD 5 []),
      pythonFloat ((splitOnComma line.data).getD 6 []),
      pythonFloat ((splitOnComma line.data).getD 7 []),
      pythonFloat ((splitOnComma line.data).getD 8 []),
      pythonFloat ((splitOnComma line.data).getD 9 []) with
    | some fr, some la, some lo, some al, some vh, some hd, some vv =>
      some {
        frame := fr
        id := ⟨(splitOnComma line.data).getD 1 []⟩
        date := ⟨(splitOnComma line.data).getD 2 []⟩
        time := ⟨(splitOnComma line.data).getD 3 []⟩
        lat := la
        lon := lo
        alt := al
        vel_h := vh
        heading := hd
        vel_v := vv
        crc := ⟨(splitOnComma line.data).getD 10 []⟩
        temp := PyFloat.finite 0
        humidity := PyFloat.finite 0 }
    | _, _, _, _, _, _, _ => none

/-- The bounded delivery queue: Queue.Queue with a capacity, holding
items in FIFO order (auto_rx.py line 60 creates it with maxsize 1). -/
structure BoundedQueue (α : Type) where
  maxsize : ℕ
  items : List α
deriving DecidableEq, Repr

/-- put_nowait wrapped in try/except pass as the decoder loops do
(auto_rx.py lines 227-230 and 264-267): if the queue is full the new
record is dropped and the exception swallowed.  Returns the new queue
state and whether the record was dropped.  The function is total: the
producer never blocks. -/
def qput_nowait (q : BoundedQueue α) (x : α) : BoundedQueue α × Bool :=
  if q.items.length < q.maxsize then ({ q with items := q.items ++ [x] }, false)
  else (q, true)

/-- get_nowait (auto_rx.py line 280): removes and returns the head
record, or returns none where Queue.Empty would be raised. -/
def qget_nowait (q : BoundedQueue α) : BoundedQueue α × Option α :=
  match q.items with
  | [] => (q, none)
  | y :: ys => ({ q with items := ys }, some y)

/-- The global delivery queue, created with capacity one
(auto_rx.py line 60). -/
def internet_push_queue (α : Type) : BoundedQueue α := ⟨1, []⟩

/-- Operations the two sides perform on the shared queue. -/
inductive QOp (α : Type) where
  | put (x : α)
  | take

/-- State reached by applying one queue operation. -/
def applyQOp (q : BoundedQueue α) : QOp α → BoundedQueue α
  | QOp.put x => (qput_nowait q x).1
  | QOp.take => (qget_nowait q).1

/-- Station configuration fields the pipeline reads
(auto_rx.py lines 320-399).  min_freq and max_freq are in MHz, the rest
in the units the source uses them in. -/
structure StationConfig where
  min_freq : ℚ
  max_freq : ℚ
  search_step : ℚ
  min_snr : ℚ
  min_distance : ℚ
  quantization : ℚ
  search_attempts : ℕ
  search_delay : ℚ
  rtlsdr_ppm : ℤ
  upload_rate : ℚ
  enable_aprs : Bool
  enable_habitat : Bool
deriving Repr

/-- Events of the dispatcher loop body. -/
inductive PushEv (α : Type) where
  | deliver (r : α)
  | sleepU (t : ℚ)
deriving DecidableEq, Repr

/-- One execution of the internet_push_thread while-loop body
(auto_rx.py lines 278-302): poll the queue without blocking; on Empty
the except branch executes continue, returning to the loop head with no
further work; on a record, deliver it when APRS output is enabled (the
Habitat branch is a no-op) and then sleep for the configured upload
rate. -/
def internet_push_iter (cfg : StationConfig) (q : BoundedQueue α) :
    BoundedQueue α × List (PushEv α) :=
  match qget_nowait q with
  | (q2, none) => (q2, [])
  | (q2, some data) =>
    (q2, (if cfg.enable_aprs then [PushEv.deliver data] else []) ++
      [PushEv.sleepU cfg.upload_rate])

/-- Sleep durations recorded by a dispatcher iteration. -/
def pushSleeps (evs : List (PushEv α)) : List ℚ :=
  evs.filterMap fun e => match e with
    | PushEv.sleepU t => some t
    | _ => none

/-- Structured parse failures of read_rtl_power: a line with fewer than
six leading fields raises an explicit Exception
(auto_rx.py lines 96-98); a non-numeric scan parameter or power sample
raises ValueError out of float()/int()/loadtxt
(auto_rx.py lines 102-108).  Each escapes read_rtl_power and is caught
by the caller. -/
inductive ReadErr where
  | badFieldCount
  | badNumber
  | badSamples
deriving DecidableEq, Repr

/-- numpy.arange over exact rationals (auto_rx.py line 107): for a
positive step, the values start + k * step for 0 <= k < ceil((stop -
start) / step).  Nonpositive steps (which the scan loop never produces)
give the empty list. -/
def np_arange (start stop fstep : ℚ) : List ℚ :=
  if 0 < fstep then
    (List.range (ratCeil (qdiv (qsub stop start) fstep)).toNat).map
      (fun k => qadd start (qmul (mkRat k 1) fstep))
  else []

/-- Parse the power samples of one scan line, fields 6 and later
(auto_rx.py line 108): numpy.loadtxt over the comma-joined fields parses
each field as a float. -/
def parseSamples (fields : List (List Char)) : Option (List ℚ) :=
  fields.mapM pythonFloatQ

/-- Worker for read_rtl_power, carrying the freq and power output
buffers and the last seen frequency step (auto_rx.py lines 80-113). -/
def read_rtl_power_go (lines : List String) (freq power : List ℚ) (fstep : ℚ) :
    Except ReadErr (List ℚ × List ℚ × ℚ) :=
  match lines with
  | [] => Except.ok (freq, power, fstep)
  | line :: rest =>
    if (splitOnComma line.data).length < 6 then Except.error ReadErr.badFieldCount
    else
      match pythonFloatQ ((splitOnComma line.data).getD 2 []),
        pythonFloatQ ((splitOnComma line.data).getD 3 []),
        pythonFloatQ ((splitOnComma line.data).getD 4 []),
        pythonInt ((splitOnComma line.data).getD 5 []) with
      | some fstart, some fstop, some fstepNew, some _nsamp =>
        match parseSamples ((splitOnComma line.data).drop 6) with
        | some samples =>
          read_rtl_power_go rest (freq ++ np_arange fstart fstop fstepNew)
            (power ++ samples) fstepNew
        | none => Except.error ReadErr.badSamples
      | _, _, _, _ => Except.error ReadErr.badNumber

/-- read_rtl_power (auto_rx.py lines 76-115): parse the scan artifact
into frequency and power buffers plus the frequency step, which starts
at 0 and keeps that value when the file has no lines. -/
def read_rtl_power (lines : List String) : Except ReadErr (List ℚ × List ℚ × ℚ) :=
  read_rtl_power_go lines [] [] 0

/-- Result of the run_rtl_power invocation (auto_rx.py lines 64-74):
on the distinguished failure status 1 the source logs and calls
sys.exit(1); on every other status it returns True. -/
inductive ScanCallResult where
  | fatal (code : ℕ)
  | ok (success : Bool)
deriving DecidableEq, Repr

/-- run_rtl_power reduced to its decision on the os.system wait status
(auto_rx.py lines 69-74). -/
def run_rtl_power (status : ℕ) : ScanCallResult :=
  if status = 1 then ScanCallResult.fatal 1 else ScanCallResult.ok true

/-- Python division that raises ZeroDivisionError on a zero divisor,
used for the min_distance / step argument of detect_peaks
(auto_rx.py line 351). -/
def pyDiv (a b : ℚ) : Option ℚ := if b = 0 then none else some (qdiv a b)

/-- Sum of a list of rationals. -/
def listSum (xs : List ℚ) : ℚ := xs.foldl qadd 0

/-- numpy.mean (auto_rx.py line 348).  numpy returns NaN for an empty
array; the 0 returned here is never observed, because on an empty
artifact the controller faults in the min_distance / step division
before any use of the mean. -/
def listMean (xs : List ℚ) : ℚ := qdiv (listSum xs) (mkRat xs.length 1)

/-- Scripted environment for one controller run: the os.system status of
each scan invocation, the artifact lines each scan leaves behind, the
detect_peaks double (findpeaks is an external module; the spec itself
tests the controller against a scripted scan/classify double), and the
wait status of the rs_detect pipeline per probed frequency. -/
structure ScanEnv where
  scanStatus : ℕ → ℕ
  artifact : ℕ → List String
  findPeaks : List ℚ → ℚ → ℚ → List ℕ
  detectStatus : ℚ → ℕ

/-- Events observable in a controller run. -/
inductive TraceEv where
  | scan (start stop fstep : ℚ)
  | peaks (idx : List ℕ)
  | sleep (t : ℚ)
  | detect (f : ℚ)
  | decode (ty : SondeType) (f : ℚ)
deriving DecidableEq, Repr

/-- The scan event of one iteration, with the band bounds scaled from
MHz to Hz as on auto_rx.py line 336. -/
def scanEv (cfg : StationConfig) : TraceEv :=
  TraceEv.scan (qmul cfg.min_freq (mkRat 1000000 1))
    (qmul cfg.max_freq (mkRat 1000000 1)) cfg.search_step

/-- Terminal result of the search while-loop. -/
inductive LoopRes where
  | exhausted
  | fatalScan
  | zeroDivFault
  | found (f : ℚ) (ty : SondeType)
deriving DecidableEq, Repr

/-- Ordered insertion, the helper for the insertion sort below. -/
def insertBy (le : α → α → Bool) (x : α) : List α → List α
  | [] => [x]
  | y :: ys => if le x y then x :: y :: ys else y :: insertBy le x ys

/-- Insertion sort, the comparison-sort model for numpy argsort; all
scripted scenarios use distinct powers, where every comparison sort
agrees. -/
def sortBy (le : α → α → Bool) : List α → List α
  | [] => []
  | x :: xs => insertBy le x (sortBy le xs)

/-- Indices 0..n-1 ordered by ascending list value (numpy.argsort). -/
def np_argsort (xs : List ℚ) : List ℕ :=
  sortBy (fun i j => xs.getD i 0 ≤ xs.getD j 0) (List.range xs.length)

/-- Ranking of detected peaks (auto_rx.py lines 360-362): take the
powers and frequencies at the peak indices, order indices by ascending
power (argsort) and reverse, giving frequencies by descending power.
numpy raises IndexError on an out-of-range index; the scripted doubles
in scope return in-range indices, so the getD default is never hit. -/
def rank_peaks (freq power : List ℚ) (idx : List ℕ) : List ℚ :=
  ((np_argsort (idx.map (fun i => power.getD i 0))).reverse).map
    (fun k => (idx.map (fun i => freq.getD i 0)).getD k 0)

/-- The classification for-loop (auto_rx.py lines 369-374): probe each
candidate in order with detect_sonde and break at the first non-None
classification.  Returns the detect events and the hit, if any. -/
def probe_candidates (env : ScanEnv) : List ℚ → List TraceEv × Option (ℚ × SondeType)
  | [] => ([], none)
  | f :: fs =>
    match detect_sonde (env.detectStatus f) with
    | some ty => ([TraceEv.detect f], some (f, ty))
    | none =>
      ((TraceEv.detect f) :: (probe_candidates env fs).1, (probe_candidates env fs).2)

/-- The search while-loop (auto_rx.py lines 334-383), by recursion on
the remaining attempt budget; iter counts completed iterations so the
environment can script each pass.  Every continuing branch decrements
the budget exactly once, as every path through the loop body does. -/
def searchLoop (cfg : StationConfig) (env : ScanEnv) : ℕ → ℕ → List TraceEv × LoopRes
  | _, 0 => ([], LoopRes.exhausted)
  | iter, n + 1 =>
    match run_rtl_power (env.scanStatus iter) with
    | ScanCallResult.fatal _ => ([scanEv cfg], LoopRes.fatalScan)
    | ScanCallResult.ok _ =>
      match read_rtl_power (env.artifact iter) with
      | Except.error _ =>
        (scanEv cfg :: TraceEv.sleep 10 :: (searchLoop cfg env (iter + 1) n).1,
          (searchLoop cfg env (iter + 1) n).2)
      | Except.ok (freqs, power, fstep) =>
        match pyDiv cfg.min_distance fstep with
        | none => ([scanEv cfg], LoopRes.zeroDivFault)
        | some mpd =>
          match env.findPeaks power (qadd (listMean power) cfg.min_snr) mpd with
          | [] =>
            (scanEv cfg :: TraceEv.peaks [] :: TraceEv.sleep 10 ::
              (searchLoop cfg env (iter + 1) n).1,
              (searchLoop cfg env (iter + 1) n).2)
          | i :: is =>
            match probe_candidates env
              ((rank_peaks freqs power (i :: is)).map
                (fun f => quantize_freq f cfg.quantization)) with
            | (evs, some (f, ty)) =>
              (scanEv cfg :: TraceEv.peaks (i :: is) :: evs, LoopRes.found f ty)
            | (evs, none) =>
              (scanEv cfg :: TraceEv.peaks (i :: is) ::
                (evs ++ TraceEv.sleep cfg.search_delay ::
                  (searchLoop cfg env (iter + 1) n).1),
                (searchLoop cfg env (iter + 1) n).2)

/-- Process-level result after the search phase. -/
inductive MainRes where
  | exitCode (c : ℕ)
  | fault
  | decoding (f : ℚ) (ty : SondeType)
deriving DecidableEq, Repr

/-- The main acquisition flow (auto_rx.py lines 323-399): run the search
loop on the configured attempt budget; exhaustion exits gracefully with
code 0 (line 387), a fatal scan exits with code 1 (line 72), an
uncaught ZeroDivisionError crashes, and a found sonde starts the
type-specific decoder. -/
def runMain (cfg : StationConfig) (env : ScanEnv) : List TraceEv × MainRes :=
  match searchLoop cfg env 0 cfg.search_attempts with
  | (tr, LoopRes.exhausted) => (tr, MainRes.exitCode 0)
  | (tr, LoopRes.fatalScan) => (tr, MainRes.exitCode 1)
  | (tr, LoopRes.zeroDivFault) => (tr, MainRes.fault)
  | (tr, LoopRes.found f ty) => (tr ++ [TraceEv.decode ty f], MainRes.decoding f ty)

/-- Sleep durations in a trace, in order. -/
def sleepTimes (tr : List TraceEv) : List ℚ :=
  tr.filterMap fun e => match e with
    | TraceEv.sleep t => some t
    | _ => none

/-- Number of scan-tool invocations in a trace. -/
def scanCount (tr : List TraceEv) : ℕ :=
  tr.countP fun e => match e with
    | TraceEv.scan _ _ _ => true
    | _ => false

/-- Number of peak-detection invocations in a trace. -/
def peaksCount (tr : List TraceEv) : ℕ :=
  tr.countP fun e => match e with
    | TraceEv.peaks _ => true
    | _ => false

/-- Frequencies probed by the classifier in a trace, in order. -/
def detectCalls (tr : List TraceEv) : List ℚ :=
  tr.filterMap fun e => match e with
    | TraceEv.detect f => some f
    | _ => none

/-- Decoder launches in a trace. -/
def decodeCalls (tr : List TraceEv) : List (SondeType × ℚ) :=
  tr.filterMap fun e => match e with
    | TraceEv.decode ty f => some (ty, f)
    | _ => none

theorem searchLoop_zero_att (cfg : StationConfig) (env : ScanEnv) (iter : ℕ) :
    searchLoop cfg env iter 0 = ([], LoopRes.exhausted) := rfl

theorem searchLoop_succ_fatal (cfg : StationConfig) (env : ScanEnv) (iter n : ℕ)
    (h : env.scanStatus iter = 1) :
    searchLoop cfg env iter (n + 1) = ([scanEv cfg], LoopRes.fatalScan) := by
  simp [searchLoop, run_rtl_power, h]

theorem searchLoop_succ_readErr (cfg : StationConfig) (env : ScanEnv) (iter n : ℕ)
    (e : ReadErr) (h1 : env.scanStatus iter ≠ 1)
    (h2 : read_rtl_power (env.artifact iter) = Except.error e) :
    searchLoop cfg env iter (n + 1) =
      (scanEv cfg :: TraceEv.sleep 10 :: (searchLoop cfg env (iter + 1) n).1,
        (searchLoop cfg env (iter + 1) n).2) := by
  simp [searchLoop, run_rtl_power, h1, h2]

theorem searchLoop_succ_zeroStep (cfg : StationConfig) (env : ScanEnv) (iter n : ℕ)
    (fr pw : List ℚ) (h1 : env.scanStatus iter ≠ 1)
    (h2 : read_rtl_power (env.artifact iter) = Except.ok (fr, pw, 0)) :
    searchLoop cfg env iter (n + 1) = ([scanEv cfg], LoopRes.zeroDivFault) := by
  simp [searchLoop, run_rtl_power, h1, h2, pyDiv]

theorem searchLoop_succ_noPeaks (cfg : StationConfig) (env : ScanEnv) (iter n : ℕ)
    (fr pw : List ℚ) (st : ℚ) (h1 : env.scanStatus iter ≠ 1)
    (h2 : read_rtl_power (env.artifact iter) = Except.ok (fr, pw, st))
    (h3 : st ≠ 0)
    (h4 : env.findPeaks pw (qadd (listMean pw) cfg.min_snr)
      (qdiv cfg.min_distance st) = []) :
    searchLoop cfg env iter (n + 1) =
      (scanEv cfg :: TraceEv.peaks [] :: TraceEv.sleep 10 ::
        (searchLoop cfg env (iter + 1) n).1,
        (searchLoop cfg env (iter + 1) n).2) := by
  simp [searchLoop, run_rtl_power, h1, h2, pyDiv, h3, h4]

theorem searchLoop_succ_found (cfg : StationConfig) (env : ScanEnv) (iter n : ℕ)
    (fr pw : List ℚ) (st : ℚ) (i : ℕ) (is : List ℕ) (evs : List TraceEv)
    (f : ℚ) (ty : SondeType) (h1 : env.scanStatus iter ≠ 1)
    (h2 : read_rtl_power (env.artifact iter) = Except.ok (fr, pw, st))
    (h3 : st ≠ 0)
    (h4 : env.findPeaks pw (qadd (listMean pw) cfg.min_snr)
      (qdiv cfg.min_distance st) = i :: is)
    (h5 : probe_candidates env ((rank_peaks fr pw (i :: is)).map
      (fun x => quantize_freq x cfg.quantization)) = (evs, some (f, ty))) :
    searchLoop cfg env iter (n + 1) =
      (scanEv cfg :: TraceEv.peaks (i :: is) :: evs, LoopRes.found f ty) := by
  simp [searchLoop, run_rtl_power, h1, h2, pyDiv, h3, h4, h5]

theorem applyQOp_maxsize (q : BoundedQueue α) (op : QOp α) :
    (applyQOp q op).maxsize = q.maxsize := by
  cases op with
  | put x =>
    simp only [applyQOp, qput_nowait]
    split <;> rfl
  | take =>
    simp only [applyQOp, qget_nowait]
    cases q.items <;> rfl

theorem applyQOp_len (q : BoundedQueue α) (op : QOp α)
    (h : q.items.length ≤ q.maxsize) :
    (applyQOp q op).items.length ≤ q.maxsize := by
  cases op with
  | put x =>
    simp only [applyQOp, qput_nowait]
    split
    · simp only [List.length_append, List.length_cons, List.length_nil]
      omega
    · exact h
  | take =>
    simp only [applyQOp, qget_nowait]
    cases hq : q.items with
    | nil => rw [hq] at h; simp [hq, h]
    | cons y ys => simp only; rw [hq] at h; simp at h ⊢; omega

theorem foldl_applyQOp_inv (ops : List (QOp α)) :
    ∀ q : BoundedQueue α, q.items.length ≤ q.maxsize →
      (ops.foldl applyQOp q).maxsize = q.maxsize ∧
      (ops.foldl applyQOp q).items.length ≤ q.maxsize := by
  induction ops with
  | nil => exact fun q h => ⟨rfl, h⟩
  | cons op rest ih =>
    intro q h
    have h1 := applyQOp_len q op h
    have h2 := applyQOp_maxsize q op
    have := ih (applyQOp q op) (by rw [h2]; exact h1)
    simp only [List.foldl_cons]
    exact ⟨by rw [this.1, h2], by rw [← h2]; exact this.2⟩

/-- C2: the delivery queue has capacity one, so any sequence of
non-blocking puts and takes starting from the fresh queue leaves at most
one pending record; a put onto an occupied slot drops the new record and
retains the pending one (reporting the drop, never blocking); and after
a take, the next put succeeds. -/
theorem c2_bounded_queue (α : Type) (x y : α) (ops : List (QOp α)) :
    (ops.foldl applyQOp (internet_push_queue α)).items.length ≤ 1 ∧
    qput_nowait (⟨1, [y]⟩ : BoundedQueue α) x = (⟨1, [y]⟩, true) ∧
    qput_nowait (qget_nowait (⟨1, [y]⟩ : BoundedQueue α)).1 x = (⟨1, [x]⟩, false) := by
  refine ⟨?_, rfl, rfl⟩
  exact (foldl_applyQOp_inv ops (internet_push_queue α) (by simp [internet_push_queue])).2

/-- C7: the classifier maps the high byte of the detection pipeline's
wait status to a transmitter type: 3 gives RS41, 4 gives RS92, and
every other value gives None. -/
theorem c7_classifier_exit_status (s : ℕ) :
    (s >>> 8 = 3 → detect_sonde s = some SondeType.RS41) ∧
    (s >>> 8 = 4 → detect_sonde s = some SondeType.RS92) ∧
    (s >>> 8 ≠ 3 → s >>> 8 ≠ 4 → detect_sonde s = none) := by
  refine ⟨fun h => ?_, fun h => ?_, fun h3 h4 => ?_⟩ <;> simp [detect_sonde, *]

theorem c7_classifier_exit_status_witness :
    detect_sonde 768 = some SondeType.RS41 ∧
    detect_sonde 1024 = some SondeType.RS92 ∧
    detect_sonde 512 = none :=
  ⟨(c7_classifier_exit_status 768).1 (by decide),
   (c7_classifier_exit_status 1024).2.1 (by decide),
   (c7_classifier_exit_status 512).2.2 (by decide) (by decide)⟩

/-- C8: frequency quantization is idempotent and always lands on an
exact integer multiple of the (nonzero) quantization step. -/
theorem c8_quantize_idempotent_multiple (f q : ℚ) (hq : q ≠ 0) :
    quantize_freq (quantize_freq f q) q = quantize_freq f q ∧
    ∃ n : ℤ, quantize_freq f q = (n : ℚ) * q := by
  have hval : ∀ g : ℚ, quantize_freq g q = ((roundHalfEven (qdiv g q) : ℤ) : ℚ) * q := by
    intro g
    rw [quantize_freq, qmul_eq, Rat.mkRat_one]
  constructor
  · rw [hval f, hval (((roundHalfEven (qdiv f q) : ℤ) : ℚ) * q), qdiv_eq,
      mul_div_cancel_right₀ _ hq, roundHalfEven_intCast]
  · exact ⟨roundHalfEven (qdiv f q), hval f⟩

theorem c8_quantize_idempotent_multiple_witness :
    quantize_freq (quantize_freq 12345 5000) 5000 = quantize_freq 12345 5000 ∧
    ∃ n : ℤ, quantize_freq 12345 5000 = (n : ℚ) * 5000 :=
  c8_quantize_idempotent_multiple 12345 5000 (by decide)

deriving instance DecidableEq for Except

/-- A configuration used by the concrete scenarios below. -/
def demoConfig : StationConfig := {
  min_freq := 400
  max_freq := 403
  search_step := 800
  min_snr := 10
  min_distance := 1000
  quantization := 100
  search_attempts := 2
  search_delay := 25
  rtlsdr_ppm := 0
  upload_rate := 5
  enable_aprs := true
  enable_habitat := false }

/-- A well-formed scan artifact line: two frequency bins at 400 MHz. -/
def goodScanLine : String := "2017-04-30,05:44,400000000,400001600,800,2,1.0,2.0"

/-- Scripted environment in which every scan succeeds, parses, and
yields zero peaks. -/
def zeroPeakEnv : ScanEnv := {
  scanStatus := fun _ => 0
  artifact := fun _ => [goodScanLine]
  findPeaks := fun _ _ _ => []
  detectStatus := fun _ => 0 }

/-- C9 (amended): the dispatcher sleeps for the configured upload rate
after each processed record, but an empty poll raises Queue.Empty and
the except branch executes continue immediately: no sleep (indeed no
work at all) happens on an empty poll iteration. -/
theorem c9_dispatcher_sleep (α : Type) (cfg : StationConfig) (q : BoundedQueue α) :
    ((qget_nowait q).2 = none → (internet_push_iter cfg q).2 = []) ∧
    (∀ r : α, (qget_nowait q).2 = some r →
      pushSleeps (internet_push_iter cfg q).2 = [cfg.upload_rate]) := by
  rcases hq : qget_nowait q with ⟨q2, r⟩
  rcases r with _ | r
  · refine ⟨fun _ => by simp [internet_push_iter, hq], fun r hr => ?_⟩
    simp at hr
  · refine ⟨fun hn => ?_, fun r2 hr => ?_⟩
    · simp at hn
    · rcases hab : cfg.enable_aprs <;>
        simp [internet_push_iter, hq, pushSleeps, hab]

/-- C9 counterexample: on an empty poll the dispatcher iteration
produces no sleep at all, refuting the claim that every iteration
sleeps for the configured upload rate. -/
theorem c9_counterexample :
    (qget_nowait (internet_push_queue ℕ)).2 = none ∧
    (internet_push_iter demoConfig (internet_push_queue ℕ)).2 = [] ∧
    demoConfig.upload_rate = 5 ∧
    pushSleeps (internet_push_iter demoConfig (internet_push_queue ℕ)).2 ≠
      [demoConfig.upload_rate] := by decide

theorem c9_dispatcher_sleep_witness :
    (internet_push_iter demoConfig (internet_push_queue ℕ)).2 = [] ∧
    pushSleeps (internet_push_iter demoConfig (⟨1, [3]⟩ : BoundedQueue ℕ)).2 =
      [demoConfig.upload_rate] :=
  ⟨(c9_dispatcher_sleep ℕ demoConfig (internet_push_queue ℕ)).1 (by decide),
   (c9_dispatcher_sleep ℕ demoConfig ⟨1, [3]⟩).2 3 (by decide)⟩

/-- C4: status 1 from the scan tool is fatal: run_rtl_power exits the
process with code 1, the controller iteration stops at the scan event
(peak detection is never attempted, no frequency is probed), and any
other status returns success True. -/
theorem c4_scan_tool_failure :
    run_rtl_power 1 = ScanCallResult.fatal 1 ∧
    (∀ s : ℕ, s ≠ 1 → run_rtl_power s = ScanCallResult.ok true) ∧
    (∀ (cfg : StationConfig) (env : ScanEnv) (iter n : ℕ),
      env.scanStatus iter = 1 →
      searchLoop cfg env iter (n + 1) = ([scanEv cfg], LoopRes.fatalScan)) ∧
    (∀ (cfg : StationConfig) (env : ScanEnv) (n : ℕ),
      cfg.search_attempts = n + 1 → env.scanStatus 0 = 1 →
      runMain cfg env = ([scanEv cfg], MainRes.exitCode 1) ∧
      peaksCount (runMain cfg env).1 = 0 ∧
      detectCalls (runMain cfg env).1 = []) := by
  refine ⟨rfl, fun s hs => by simp [run_rtl_power, hs],
    fun cfg env iter n h => searchLoop_succ_fatal cfg env iter n h,
    fun cfg env n hn h => ?_⟩
  have hm : runMain cfg env = ([scanEv cfg], MainRes.exitCode 1) := by
    unfold runMain
    rw [hn, searchLoop_succ_fatal cfg env 0 n h]
  exact ⟨hm, by rw [hm]; rfl, by rw [hm]; rfl⟩

/-- Scripted environment whose scan tool fails with status 1. -/
def scanFailEnv : ScanEnv := { zeroPeakEnv with scanStatus := fun _ => 1 }

theorem c4_scan_tool_failure_witness :
    runMain demoConfig scanFailEnv = ([scanEv demoConfig], MainRes.exitCode 1) ∧
    peaksCount (runMain demoConfig scanFailEnv).1 = 0 ∧
    detectCalls (runMain demoConfig scanFailEnv).1 = [] :=
  c4_scan_tool_failure.2.2.2 demoConfig scanFailEnv 1 (by decide) (by decide)

theorem read_go_error_of_short :
    ∀ (lines : List String) (fr pw : List ℚ) (st : ℚ),
      (∃ l ∈ lines, (splitOnComma l.data).length < 6) →
      ∃ e, read_rtl_power_go lines fr pw st = Except.error e := by
  intro lines
  induction lines with
  | nil =>
    intro fr pw st h
    rcases h with ⟨l, hl, _⟩
    exact absurd hl (List.not_mem_nil l)
  | cons line rest ih =>
    intro fr pw st h
    by_cases hlen : (splitOnComma line.data).length < 6
    · exact ⟨ReadErr.badFieldCount, by simp [read_rtl_power_go, hlen]⟩
    · rcases h with ⟨l, hl, hshort⟩
      rcases List.mem_cons.mp hl with rfl | hmem
      · exact absurd hshort hlen
      · rcases h2 : pythonFloatQ ((splitOnComma line.data).getD 2 []) with _ | v2 <;>
          rcases h3 : pythonFloatQ ((splitOnComma line.data).getD 3 []) with _ | v3 <;>
          rcases h4 : pythonFloatQ ((splitOnComma line.data).getD 4 []) with _ | v4 <;>
          rcases h5 : pythonInt ((splitOnComma line.data).getD 5 []) with _ | v5 <;>
          rcases h6 : parseSamples ((splitOnComma line.data).drop 6) with _ | smp <;>
          simp only [read_rtl_power_go, if_neg hlen, h2, h3, h4, h5, h6] <;>
          first
            | exact ⟨_, rfl⟩
            | exact ih _ _ _ ⟨l, hmem, hshort⟩

/-- C5: a scan artifact containing a line with fewer than six
comma-separated fields makes read_rtl_power raise a structured parse
failure, and the controller treats every read failure as transient, not
fatal: it decrements the attempt budget by exactly one, sleeps the fixed
10-second backoff, and retries scanning instead of aborting. -/
theorem c5_malformed_artifact_transient :
    (∀ lines : List String, (∃ l ∈ lines, (splitOnComma l.data).length < 6) →
      ∃ e, read_rtl_power lines = Except.error e) ∧
    (∀ (cfg : StationConfig) (env : ScanEnv) (iter n : ℕ) (e : ReadErr),
      env.scanStatus iter ≠ 1 →
      read_rtl_power (env.artifact iter) = Except.error e →
      searchLoop cfg env iter (n + 1) =
        (scanEv cfg :: TraceEv.sleep 10 :: (searchLoop cfg env (iter + 1) n).1,
          (searchLoop cfg env (iter + 1) n).2)) :=
  ⟨fun lines h => read_go_error_of_short lines [] [] 0 h,
   fun cfg env iter n e h1 h2 => searchLoop_succ_readErr cfg env iter n e h1 h2⟩

/-- Scripted environment whose scan artifact has a malformed line. -/
def badArtifactEnv : ScanEnv := { zeroPeakEnv with artifact := fun _ => ["a,b,c"] }

theorem c5_malformed_artifact_transient_witness :
    (∃ e, read_rtl_power ["a,b,c"] = Except.error e) ∧
    searchLoop demoConfig badArtifactEnv 0 2 =
      (scanEv demoConfig :: TraceEv.sleep 10 ::
        (searchLoop demoConfig badArtifactEnv 1 1).1,
        (searchLoop demoConfig badArtifactEnv 1 1).2) :=
  ⟨c5_malformed_artifact_transient.1 ["a,b,c"] ⟨"a,b,c", by simp, by decide⟩,
   c5_malformed_artifact_transient.2 demoConfig badArtifactEnv 0 1
     ReadErr.badFieldCount (by decide) (by decide)⟩

/-- C10: a scan artifact with zero lines is read back successfully as
empty frequency and power arrays with frequency step 0 — it is not a
malformed artifact and no parse failure is raised — and the controller
then divides the configured minimum peak distance by this zero step
with no guard: the division (modelled by pyDiv) faults before peak
detection is ever invoked. -/
theorem c10_empty_artifact_division_fault :
    read_rtl_power ([] : List String) = Except.ok ([], [], 0) ∧
    (∀ d : ℚ, pyDiv d 0 = none) ∧
    (∀ (cfg : StationConfig) (env : ScanEnv) (iter n : ℕ),
      env.scanStatus iter ≠ 1 → env.artifact iter = [] →
      searchLoop cfg env iter (n + 1) = ([scanEv cfg], LoopRes.zeroDivFault)) ∧
    (∀ (cfg : StationConfig) (env : ScanEnv) (n : ℕ),
      cfg.search_attempts = n + 1 → env.scanStatus 0 ≠ 1 → env.artifact 0 = [] →
      runMain cfg env = ([scanEv cfg], MainRes.fault) ∧
      peaksCount (runMain cfg env).1 = 0) := by
  refine ⟨rfl, fun d => rfl,
    fun cfg env iter n h1 h2 =>
      searchLoop_succ_zeroStep cfg env iter n [] [] h1 (by rw [h2]; rfl),
    fun cfg env n hn h1 h2 => ?_⟩
  have hm : runMain cfg env = ([scanEv cfg], MainRes.fault) := by
    unfold runMain
    rw [hn, searchLoop_succ_zeroStep cfg env 0 n [] [] h1 (by rw [h2]; rfl)]
  exact ⟨hm, by rw [hm]; rfl⟩

/-- Scripted environment whose scan artifact is empty. -/
def emptyArtifactEnv : ScanEnv := { zeroPeakEnv with artifact := fun _ => [] }

theorem c10_empty_artifact_division_fault_witness :
    runMain demoConfig emptyArtifactEnv = ([scanEv demoConfig], MainRes.fault) ∧
    peaksCount (runMain demoConfig emptyArtifactEnv).1 = 0 :=
  c10_empty_artifact_division_fault.2.2.2 demoConfig emptyArtifactEnv 1
    (by decide) (by decide) (by decide)

/-- One search iteration in which the scan tool succeeds, the artifact
parses with a nonzero frequency step, and peak detection reports zero
peaks. -/
def zeroPeakIter (cfg : StationConfig) (env : ScanEnv) (i : ℕ) : Prop :=
  env.scanStatus i ≠ 1 ∧
  ∃ fr pw st, read_rtl_power (env.artifact i) = Except.ok (fr, pw, st) ∧ st ≠ 0 ∧
    env.findPeaks pw (qadd (listMean pw) cfg.min_snr) (qdiv cfg.min_distance st) = []

/-- The trace of n consecutive zero-peak search iterations: each scans,
runs peak detection, and sleeps the fixed 10-second backoff. -/
def zeroTrace (cfg : StationConfig) : ℕ → List TraceEv
  | 0 => []
  | n + 1 => scanEv cfg :: TraceEv.peaks [] :: TraceEv.sleep 10 :: zeroTrace cfg n

theorem searchLoop_zeroPeaks (cfg : StationConfig) (env : ScanEnv)
    (h : ∀ i, zeroPeakIter cfg env i) :
    ∀ n iter : ℕ, searchLoop cfg env iter n = (zeroTrace cfg n, LoopRes.exhausted) := by
  intro n
  induction n with
  | zero => intro iter; rfl
  | succ n ih =>
    intro iter
    obtain ⟨hs, fr, pw, st, hread, hst, hpk⟩ := h iter
    rw [searchLoop_succ_noPeaks cfg env iter n fr pw st hs hread hst hpk, ih (iter + 1)]
    simp [zeroTrace]

theorem zeroTrace_projections (cfg : StationConfig) (n : ℕ) :
    sleepTimes (zeroTrace cfg n) = List.replicate n 10 ∧
    scanCount (zeroTrace cfg n) = n ∧
    detectCalls (zeroTrace cfg n) = [] ∧
    decodeCalls (zeroTrace cfg n) = [] := by
  induction n with
  | zero => exact ⟨rfl, rfl, rfl, rfl⟩
  | succ n ih =>
    obtain ⟨h1, h2, h3, h4⟩ := ih
    simp only [sleepTimes] at h1
    simp only [scanCount] at h2
    simp only [detectCalls] at h3
    simp only [decodeCalls] at h4
    refine ⟨?_, ?_, ?_, ?_⟩ <;>
      simp [zeroTrace, sleepTimes, scanCount, detectCalls, decodeCalls, scanEv,
        h1, h2, h3, h4, List.replicate_succ]

/-- C1 (amended): with a positive attempt budget and every scan pass
yielding zero peaks, the controller reaches exhaustion after exactly the
configured number of iterations, sleeping the fixed 10-second retry
backoff after each failed pass (the configured search delay is only
slept in the branch whose classification probes all fail), never probes
a frequency, never invokes any decoder path, and the process exits
gracefully with exit code 0. -/
theorem c1_search_exhaustion (cfg : StationConfig) (env : ScanEnv)
    (_hpos : 0 < cfg.search_attempts) (h : ∀ i, zeroPeakIter cfg env i) :
    (runMain cfg env).2 = MainRes.exitCode 0 ∧
    scanCount (runMain cfg env).1 = cfg.search_attempts ∧
    sleepTimes (runMain cfg env).1 = List.replicate cfg.search_attempts 10 ∧
    detectCalls (runMain cfg env).1 = [] ∧
    decodeCalls (runMain cfg env).1 = [] := by
  have hm : runMain cfg env = (zeroTrace cfg cfg.search_attempts, MainRes.exitCode 0) := by
    unfold runMain
    rw [searchLoop_zeroPeaks cfg env h cfg.search_attempts 0]
  obtain ⟨h1, h2, h3, h4⟩ := zeroTrace_projections cfg cfg.search_attempts
  rw [hm]
  exact ⟨rfl, h2, h1, h3, h4⟩

/-- The configuration of the C1 counterexample: one attempt and a
configured search delay of 25 seconds. -/
def c1cfg : StationConfig := { demoConfig with search_attempts := 1 }

/-- C1 counterexample: in a zero-peak run the controller sleeps the
fixed 10 seconds, not the configured search delay (25 seconds here), so
the claim that it sleeps the configured search delay between attempts is
false on the code. -/
theorem c1_counterexample :
    (runMain c1cfg zeroPeakEnv).2 = MainRes.exitCode 0 ∧
    sleepTimes (runMain c1cfg zeroPeakEnv).1 = [(10 : ℚ)] ∧
    c1cfg.search_delay = 25 ∧
    sleepTimes (runMain c1cfg zeroPeakEnv).1 ≠
      List.replicate c1cfg.search_attempts c1cfg.search_delay := by decide

theorem c1_search_exhaustion_witness :
    (runMain demoConfig zeroPeakEnv).2 = MainRes.exitCode 0 ∧
    scanCount (runMain demoConfig zeroPeakEnv).1 = demoConfig.search_attempts ∧
    sleepTimes (runMain demoConfig zeroPeakEnv).1 =
      List.replicate demoConfig.search_attempts 10 ∧
    detectCalls (runMain demoConfig zeroPeakEnv).1 = [] ∧
    decodeCalls (runMain demoConfig zeroPeakEnv).1 = [] :=
  c1_search_exhaustion demoConfig zeroPeakEnv (by decide)
    (fun i => ⟨(by decide : (0 : ℕ) ≠ 1), [400000000, 400000800], [1, 2], 800,
      (by decide : read_rtl_power [goodScanLine] =
        Except.ok ([400000000, 400000800], [1, 2], 800)),
      (by decide : (800 : ℚ) ≠ 0), rfl⟩)

/-- C6: the classification loop probes ranked quantized candidates in
order and stops at the first non-None classification; with two ranked
candidates where only the second classifies as RS41, a single scan
iteration ends in the found outcome at the second frequency with type
RS41 — the run trace holds exactly one scan event, the two probes in
ranked order, and the decoder launch, so no later candidate is probed
and no further scan iteration is run. -/
theorem c6_found_on_second_candidate :
    (∀ (env : ScanEnv) (f : ℚ) (fs : List ℚ) (ty : SondeType),
      detect_sonde (env.detectStatus f) = some ty →
      probe_candidates env (f :: fs) = ([TraceEv.detect f], some (f, ty))) ∧
    (∀ (cfg : StationConfig) (env : ScanEnv) (n : ℕ) (fr pw : List ℚ) (st : ℚ)
      (idx : List ℕ) (ca cb : ℚ),
      cfg.search_attempts = n + 1 →
      env.scanStatus 0 ≠ 1 →
      read_rtl_power (env.artifact 0) = Except.ok (fr, pw, st) →
      st ≠ 0 →
      env.findPeaks pw (qadd (listMean pw) cfg.min_snr)
        (qdiv cfg.min_distance st) = idx →
      (rank_peaks fr pw idx).map (fun x => quantize_freq x cfg.quantization) =
        [ca, cb] →
      detect_sonde (env.detectStatus ca) = none →
      detect_sonde (env.detectStatus cb) = some SondeType.RS41 →
      runMain cfg env =
        ([scanEv cfg, TraceEv.peaks idx, TraceEv.detect ca, TraceEv.detect cb,
          TraceEv.decode SondeType.RS41 cb],
          MainRes.decoding cb SondeType.RS41)) := by
  constructor
  · intro env f fs ty h
    simp [probe_candidates, h]
  · intro cfg env n fr pw st idx ca cb hn hs hread hst hpk hcands hca hcb
    cases idx with
    | nil =>
      rw [show rank_peaks fr pw [] = [] from rfl] at hcands
      exact absurd hcands (by simp)
    | cons i is =>
      have hprobe : probe_candidates env
          ((rank_peaks fr pw (i :: is)).map
            (fun x => quantize_freq x cfg.quantization)) =
          ([TraceEv.detect ca, TraceEv.detect cb], some (cb, SondeType.RS41)) := by
        rw [hcands]
        simp [probe_candidates, hca, hcb]
      have hloop := searchLoop_succ_found cfg env 0 n fr pw st i is
        [TraceEv.detect ca, TraceEv.detect cb] cb SondeType.RS41 hs hread hst hpk hprobe
      unfold runMain
      rw [hn, hloop]
      rfl

/-- The configuration of the C6 scenario: a single search attempt. -/
def c6cfg : StationConfig := { demoConfig with search_attempts := 1 }

/-- Scripted environment for C6: two peaks whose ranked quantized
candidates are 400000800 Hz then 400000000 Hz; only the second
classifies (status 768, high byte 3: RS41). -/
def c6env : ScanEnv := {
  scanStatus := fun _ => 0
  artifact := fun _ => [goodScanLine]
  findPeaks := fun _ _ _ => [0, 1]
  detectStatus := fun f => if f = 400000000 then 768 else 0 }

theorem c6_found_on_second_candidate_witness :
    runMain c6cfg c6env =
      ([scanEv c6cfg, TraceEv.peaks [0, 1], TraceEv.detect 400000800,
        TraceEv.detect 400000000, TraceEv.decode SondeType.RS41 400000000],
        MainRes.decoding 400000000 SondeType.RS41) :=
  c6_found_on_second_candidate.2 c6cfg c6env 0 [400000000, 400000800] [1, 2] 800
    [0, 1] 400000800 400000000 (by decide) (by decide)
    (by decide : read_rtl_power [goodScanLine] =
      Except.ok ([400000000, 400000800], [1, 2], 800))
    (by decide) rfl (by decide) (by decide) (by decide)

theorem process_rs_line_isSome_iff (line : String) :
    (process_rs_line line).isSome ↔
      (11 ≤ (splitOnComma line.data).length ∧
       (pythonInt ((splitOnComma line.data).getD 0 [])).isSome ∧
       (pythonFloat ((splitOnComma line.data).getD 4 [])).isSome ∧
       (pythonFloat ((splitOnComma line.data).getD 5 [])).isSome ∧
       (pythonFloat ((splitOnComma line.data).getD 6 [])).isSome ∧
       (pythonFloat ((splitOnComma line.data).getD 7 [])).isSome ∧
       (pythonFloat ((splitOnComma line.data).getD 8 [])).isSome ∧
       (pythonFloat ((splitOnComma line.data).getD 9 [])).isSome) := by
  unfold process_rs_line
  by_cases hlen : (splitOnComma line.data).length < 11
  · rw [if_pos hlen]
    simp only [Option.isSome_none, Bool.false_eq_true, false_iff]
    intro hc
    exact absurd hc.1 (by omega)
  · rw [if_neg hlen]
    have hle : 11 ≤ (splitOnComma line.data).length := Nat.le_of_not_lt hlen
    rcases h0 : pythonInt ((splitOnComma line.data).getD 0 []) with _ | v0 <;>
      rcases h4 : pythonFloat ((splitOnComma line.data).getD 4 []) with _ | v4 <;>
      rcases h5 : pythonFloat ((splitOnComma line.data).getD 5 []) with _ | v5 <;>
      rcases h6 : pythonFloat ((splitOnComma line.data).getD 6 []) with _ | v6 <;>
      rcases h7 : pythonFloat ((splitOnComma line.data).getD 7 []) with _ | v7 <;>
      rcases h8 : pythonFloat ((splitOnComma line.data).getD 8 []) with _ | v8 <;>
      rcases h9 : pythonFloat ((splitOnComma line.data).getD 9 []) with _ | v9 <;>
      simp [h0, h4, h5, h6, h7, h8, h9, hle]

/-- The sample decoder line from the source comment
(auto_rx.py line 147). -/
def sampleTelemetryLine : String :=
  "106,M3553150,2017-04-30,05:44:40.460,-34.72471,138.69178,-263.83,0.1,265.0,0.3,OK"

/-- C3 (amended): the parser returns a record exactly when the line
splits into at least eleven comma-separated fields and every typed
coercion succeeds — the integer frame, then the id/date/time strings,
then SIX floats (lat, lon, alt, horizontal velocity, heading, vertical
velocity, fields 4 through 9), then the status string; the sample line
yields frame 106, id M3553150, lat -34.72471, lon 138.69178,
alt -263.83 and crc OK; the parser is a total function into an optional
record, so no coercion failure escapes its boundary. -/
theorem c3_parser_iff_and_sample :
    (∀ line : String, (process_rs_line line).isSome ↔
      (11 ≤ (splitOnComma line.data).length ∧
       (pythonInt ((splitOnComma line.data).getD 0 [])).isSome ∧
       (pythonFloat ((splitOnComma line.data).getD 4 [])).isSome ∧
       (pythonFloat ((splitOnComma line.data).getD 5 [])).isSome ∧
       (pythonFloat ((splitOnComma line.data).getD 6 [])).isSome ∧
       (pythonFloat ((splitOnComma line.data).getD 7 [])).isSome ∧
       (pythonFloat ((splitOnComma line.data).getD 8 [])).isSome ∧
       (pythonFloat ((splitOnComma line.data).getD 9 [])).isSome)) ∧
    process_rs_line sampleTelemetryLine = some {
      frame := 106
      id := "M3553150"
      date := "2017-04-30"
      time := "05:44:40.460"
      lat := PyFloat.finite (mkRat (-3472471) 100000)
      lon := PyFloat.finite (mkRat 13869178 100000)
      alt := PyFloat.finite (mkRat (-26383) 100)
      vel_h := PyFloat.finite (mkRat 1 10)
      heading := PyFloat.finite (mkRat 265 1)
      vel_v := PyFloat.finite (mkRat 3 10)
      crc := "OK"
      temp := PyFloat.finite 0
      humidity := PyFloat.finite 0 } :=
  ⟨process_rs_line_isSome_iff, by decide⟩

/-- An eleven-field line on which every coercion the claim lists (the
integer frame and five floats, fields 4 through 8) succeeds, but whose
field 9 is non-numeric. -/
def badTelemetryLine : String := "106,M,D,T,1,2,3,4,5,XX,OK"

/-- C3 counterexample: the claim enumerates five float coercions, but
the code also float-coerces field 9 (vertical velocity).  On this
eleven-field line every coercion the claim lists succeeds, yet the
parser returns no record because float() fails on field 9, so the
claimed equivalence is false as stated. -/
theorem c3_counterexample :
    ¬((process_rs_line badTelemetryLine).isSome ↔
      (11 ≤ (splitOnComma badTelemetryLine.data).length ∧
       (pythonInt ((splitOnComma badTelemetryLine.data).getD 0 [])).isSome ∧
       (pythonFloat ((splitOnComma badTelemetryLine.data).getD 4 [])).isSome ∧
       (pythonFloat ((splitOnComma badTelemetryLine.data).getD 5 [])).isSome ∧
       (pythonFloat ((splitOnComma badTelemetryLine.data).getD 6 [])).isSome ∧
       (pythonFloat ((splitOnComma badTelemetryLine.data).getD 7 [])).isSome ∧
       (pythonFloat ((splitOnComma badTelemetryLine.data).getD 8 [])).isSome)) := by
  decide
